import Mathlib

/-!
Verification of the generic sideloading core of antismash
(`antismash/detection/sideloader/general.py`), a reconciliation engine that
merges externally produced genomic region annotations (sub-regions and
proto-clusters), manual regions and marker-gene windows into one validated
result set per record.

The file shallowly embeds `load_single_record_annotations` and the data it
manipulates.  Python integers are `Int` (Python's `%` with a positive modulus
agrees with `Int.emod`), Python exceptions are `Except`, and the
`logging.warning` side effect is returned as an explicit list of warning
strings alongside the outcome.  Collaborating modules that are not part of the
reviewed source (`data_structures.py`, `loader.py`, the `Record` class from
`antismash.common.secmet`) are modelled from the specification and marked as
such in their doc comments.
-/

/-- A producing tool: name, version, description and arbitrary extra
metadata, mirroring the `Tool` record of `data_structures.py`. -/
structure Tool where
  name : String
  version : String
  description : String
  extra : List (String × String)
deriving Repr, DecidableEq

/-- Modelled from the spec: a CDS (gene) feature of the record abstraction,
which is an external collaborator exposing a name and genomic bounds.
`stop` embeds the Python attribute `end` (a Lean keyword). -/
structure CDSFeature where
  name : String
  start : Int
  stop : Int
deriving Repr, DecidableEq

/-- Modelled from the spec: the genomic record abstraction
(`antismash.common.secmet.Record`), an out-of-scope collaborator that
exposes CDS lookup by name, total sequence length, a circularity flag and a
contained-CDS query.  `length` embeds both `len(record)` and
`len(record.seq)`, which coincide for a real record. -/
structure Record where
  id : String
  names : List String
  length : Int
  circular : Bool
  cds_features : List CDSFeature
deriving Repr, DecidableEq

/-- Modelled from the spec: record/alias name matching (`record.has_name`). -/
def Record.has_name (record : Record) (name : String) : Bool :=
  record.names.contains name

/-- Modelled from the spec: the circularity flag (`record.is_circular()`). -/
def Record.is_circular (record : Record) : Bool :=
  record.circular

/-- Modelled from the spec: CDS lookup by locus tag
(`record.get_cds_by_name`); the Python `KeyError` on a missing name becomes
`none`. -/
def Record.get_cds_by_name (record : Record) (name : String) : Option CDSFeature :=
  record.cds_features.find? (fun cds => cds.name == name)

/-- A genomic location built from an interval: either a simple half-open
window or, for a wraparound interval on a circular record, the compound
region spanning start to the origin plus zero to stop. -/
inductive Location where
  | simple (start stop : Int)
  | wrapped (start origin stop : Int)
deriving Repr, DecidableEq

/-- Modelled from the spec: whether a gene with the given bounds is fully
contained in a location; a wraparound location contains a gene when either
of its two arms does ("end < start" wraps through position 0). -/
def Location.contains_gene (loc : Location) (s e : Int) : Bool :=
  match loc with
  | .simple a b => decide (a ≤ s) && decide (e ≤ b)
  | .wrapped a origin b =>
      (decide (a ≤ s) && decide (e ≤ origin)) || (decide (0 ≤ s) && decide (e ≤ b))

/-- Modelled from the spec: the record query for gene features fully
contained within a location (`record.get_cds_features_within_location`). -/
def Record.get_cds_features_within_location (record : Record) (loc : Location) :
    List CDSFeature :=
  record.cds_features.filter (fun cds => loc.contains_gene cds.start cds.stop)

/-- A sub-region interval as built by the sideloader: start/stop bounds, a
free-text label, the producing tool, extra properties and an optional
circular origin.  Embeds the `SubRegionAnnotation` class of
`data_structures.py`; `stop` embeds the Python attribute `end`. -/
structure SubRegionAnno where
  start : Int
  stop : Int
  label : String
  tool : Tool
  extra : List (String × String)
  circular_origin : Option Int
deriving Repr, DecidableEq

/-- A proto-cluster interval: like a sub-region but additionally typed by a
product string.  Embeds the `ProtoclusterAnnotation` class of
`data_structures.py`. -/
structure ProtoclusterAnno where
  start : Int
  stop : Int
  product : String
  tool : Tool
  extra : List (String × String)
  circular_origin : Option Int
deriving Repr, DecidableEq

/-- Modelled from the spec: the shared location builder of
`data_structures.py` — downstream containment queries special-case
`end < start` on a circular-origin interval as wrapping through position 0. -/
def make_location (start stop : Int) (circular_origin : Option Int) : Location :=
  match circular_origin with
  | some origin => if stop < start then .wrapped start origin stop else .simple start stop
  | none => .simple start stop

/-- Location of a sub-region interval (`SubRegionAnnotation.build_location`). -/
def SubRegionAnno.build_location (a : SubRegionAnno) : Location :=
  make_location a.start a.stop a.circular_origin

/-- Location of a proto-cluster interval
(`ProtoclusterAnnotation.build_location`). -/
def ProtoclusterAnno.build_location (a : ProtoclusterAnno) : Location :=
  make_location a.start a.stop a.circular_origin

/-- Modelled from the spec: the descriptive form of a sub-region used in
error messages (Python `str(area)`). -/
def SubRegionAnno.describe (a : SubRegionAnno) : String :=
  let s := toString a.start
  let e := toString a.stop
  s!"subregion {a.label} [{s} - {e}]"

/-- Modelled from the spec: the descriptive form of a proto-cluster used in
error messages (Python `str(area)`). -/
def ProtoclusterAnno.describe (a : ProtoclusterAnno) : String :=
  let s := toString a.start
  let e := toString a.stop
  s!"protocluster {a.product} [{s} - {e}]"

/-- The single input-error type all fatal sideloading failures propagate as
(`antismash.common.errors.AntismashInputError`). -/
structure AntismashInputError where
  message : String
deriving Repr, DecidableEq

/-- A raw sub-region entry of an annotation source file: numeric bounds, an
optional label and tool-specific extra fields. -/
structure AreaJson where
  start : Int
  stop : Int
  label : String
  details : List (String × String)
deriving Repr, DecidableEq

/-- A raw proto-cluster entry of an annotation source file, additionally
carrying a product string. -/
structure ProtoJson where
  start : Int
  stop : Int
  product : String
  details : List (String × String)
deriving Repr, DecidableEq

/-- One per-record entry of an annotation source file: a record name and the
declared sub-region and proto-cluster lists. -/
structure RecordJson where
  name : String
  subregions : List AreaJson
  protoclusters : List ProtoJson
deriving Repr, DecidableEq

/-- The schema-validated content of one annotation source file: the
producing tool and the per-record entries. -/
structure AnnotationFile where
  tool : Tool
  records : List RecordJson
deriving Repr, DecidableEq

/-- An annotation source file as handed to the loader: either one that
passes schema validation, or one that fails it with a message. -/
inductive AnnotationFileInput where
  | valid (file : AnnotationFile)
  | invalid (message : String)
deriving Repr, DecidableEq

/-- Modelled from the spec: `load_validated_json` from the missing
`loader.py` — schema validation is a pure function from a file to either a
validated structure or a descriptive input error, rejecting a malformed
source wholesale. -/
def load_validated_json (file : AnnotationFileInput) :
    Except AntismashInputError AnnotationFile :=
  match file with
  | .valid f => .ok f
  | .invalid msg => .error ⟨msg⟩

/-- Modelled from the spec: `SubRegionAnnotation.from_schema_json` from the
missing `data_structures.py`, the coordinate normalizer for source-file
entries.  Circular case: `start = (raw_start + origin) % origin`,
`end = raw_end % origin`, recording the circular origin.  Non-circular case:
bounds must satisfy `0 <= start < end`, otherwise a `ValueError` (here the
`Except` error string) is raised naming the offending interval. -/
def SubRegionAnno.from_schema_json (area : AreaJson) (tool : Tool)
    (circular_origin : Option Int) : Except String SubRegionAnno :=
  match circular_origin with
  | some origin =>
      .ok ⟨(area.start + origin) % origin, area.stop % origin, area.label, tool,
        area.details, some origin⟩
  | none =>
      if 0 ≤ area.start ∧ area.start < area.stop then
        .ok ⟨area.start, area.stop, area.label, tool, area.details, none⟩
      else
        let s := toString area.start
        let e := toString area.stop
        .error s!"invalid subregion coordinates {s} and {e}"

/-- Modelled from the spec: `ProtoclusterAnnotation.from_schema_json` from
the missing `data_structures.py`, the same normalizer threaded with the
product string. -/
def ProtoclusterAnno.from_schema_json (area : ProtoJson) (tool : Tool)
    (circular_origin : Option Int) : Except String ProtoclusterAnno :=
  match circular_origin with
  | some origin =>
      .ok ⟨(area.start + origin) % origin, area.stop % origin, area.product, tool,
        area.details, some origin⟩
  | none =>
      if 0 ≤ area.start ∧ area.start < area.stop then
        .ok ⟨area.start, area.stop, area.product, tool, area.details, none⟩
      else
        let s := toString area.start
        let e := toString area.stop
        .error s!"invalid protocluster coordinates {s} and {e}"

/-- The per-record result set: the record identifier with the ordered
sub-region and proto-cluster sequences (`SideloadedResults`). -/
structure SideloadedResults where
  record_id : String
  subregions : List SubRegionAnno
  protoclusters : List ProtoclusterAnno
deriving Repr, DecidableEq

/-- A manually specified area from the command line (`SideloadSimple`):
accession plus integer bounds; `stop` embeds the Python attribute `end`. -/
structure SideloadSimple where
  accession : String
  start : Int
  stop : Int
deriving Repr, DecidableEq

/-- The sub-region loading loop of `load_single_record_annotations`
(lines 53-58): each declared area is converted with `from_schema_json`; a
`ValueError` is re-raised as `AntismashInputError`
`"sideloaded subregion invalid: ..."`, aborting at the first failure. -/
def load_subregions (areas : List AreaJson) (tool : Tool)
    (circular_origin : Option Int) :
    Except AntismashInputError (List SubRegionAnno) :=
  match areas with
  | [] => .ok []
  | area :: rest =>
    match SubRegionAnno.from_schema_json area tool circular_origin with
    | .error err => .error ⟨s!"sideloaded subregion invalid: {err}"⟩
    | .ok sub =>
      match load_subregions rest tool circular_origin with
      | .error e => .error e
      | .ok subs => .ok (sub :: subs)

/-- The proto-cluster loading loop of `load_single_record_annotations`
(lines 59-63), re-raising conversion failures as
`"sideloaded protocluster invalid: ..."`. -/
def load_protoclusters (areas : List ProtoJson) (tool : Tool)
    (circular_origin : Option Int) :
    Except AntismashInputError (List ProtoclusterAnno) :=
  match areas with
  | [] => .ok []
  | area :: rest =>
    match ProtoclusterAnno.from_schema_json area tool circular_origin with
    | .error err => .error ⟨s!"sideloaded protocluster invalid: {err}"⟩
    | .ok loaded =>
      match load_protoclusters rest tool circular_origin with
      | .error e => .error e
      | .ok protos => .ok (loaded :: protos)

/-- The per-file record loop: entries whose name the record does not carry
are skipped; matching entries contribute their sub-regions and
proto-clusters in declaration order. -/
def load_file_records (entries : List RecordJson) (record : Record) (tool : Tool)
    (circular_origin : Option Int) :
    Except AntismashInputError (List SubRegionAnno × List ProtoclusterAnno) :=
  match entries with
  | [] => .ok ([], [])
  | entry :: rest =>
    if record.has_name entry.name then
      match load_subregions entry.subregions tool circular_origin with
      | .error e => .error e
      | .ok subs =>
        match load_protoclusters entry.protoclusters tool circular_origin with
        | .error e => .error e
        | .ok protos =>
          match load_file_records rest record tool circular_origin with
          | .error e => .error e
          | .ok (restSubs, restProtos) => .ok (subs ++ restSubs, protos ++ restProtos)
    else
      load_file_records rest record tool circular_origin

/-- The outer file loop of `load_single_record_annotations` (lines 46-63):
each file is schema-validated, its tool read, and its qualifying intervals
appended in source order. -/
def load_files (files : List AnnotationFileInput) (record : Record)
    (circular_origin : Option Int) :
    Except AntismashInputError (List SubRegionAnno × List ProtoclusterAnno) :=
  match files with
  | [] => .ok ([], [])
  | file :: rest =>
    match load_validated_json file with
    | .error e => .error e
    | .ok raw =>
      match load_file_records raw.records record raw.tool circular_origin with
      | .error e => .error e
      | .ok (subs, protos) =>
        match load_files rest record circular_origin with
        | .error e => .error e
        | .ok (restSubs, restProtos) => .ok (subs ++ restSubs, protos ++ restProtos)

/-- The synthetic "manual" tool used for manual and marker-derived
intervals (line 65). -/
def manual_tool : Tool :=
  ⟨"manual", "N/A", "command line argument", []⟩

/-- The manual-region step (lines 66-69): if the manual accession matches
the record, one sub-region is built from `manual.start` to
`min(manual.end, len(record.seq))` with the record's circular origin; the
start bound is passed through unmodified. -/
def manual_subregions (record : Record) (manual : Option SideloadSimple)
    (circular_origin : Option Int) : List SubRegionAnno :=
  match manual with
  | none => []
  | some m =>
    if record.has_name m.accession then
      [⟨m.start, min m.stop record.length, "", manual_tool, [], circular_origin⟩]
    else
      []

/-- The marker loop of `load_single_record_annotations` (lines 72-89):
missing names are collected into a set (membership-based, no duplicates);
each found marker contributes one padded sub-region labeled with its own
name — wrapped modulo the record length on a circular record, clamped into
the record otherwise.  Returns the sub-regions in list order together with
the collected missing names. -/
def process_markers (names : List String) (record : Record) (tool : Tool)
    (padding : Int) : List SubRegionAnno × List String :=
  match names with
  | [] => ([], [])
  | name :: rest =>
    let prev := process_markers rest record tool padding
    match record.get_cds_by_name name with
    | none => (prev.1, prev.2.insert name)
    | some cds =>
      let start := cds.start - padding
      let stop := cds.stop + padding
      let subregion : SubRegionAnno :=
        if record.is_circular then
          ⟨(start + record.length) % record.length, stop % record.length, name, tool,
            [], some record.length⟩
        else
          ⟨max 0 start, min stop record.length, name, tool, [], none⟩
      (subregion :: prev.1, prev.2)

/-- The validation loop of `load_single_record_annotations` (lines 93-95):
walk the areas in the given order and raise on the first one that contains
no complete CDS feature of the record; the pairs carry each area's location
and descriptive form. -/
def validate_areas (record : Record) (areas : List (Location × String)) :
    Option AntismashInputError :=
  match areas with
  | [] => none
  | (loc, desc) :: rest =>
    if (record.get_cds_features_within_location loc).isEmpty then
      some ⟨s!"sideloaded area contains no complete CDS features in {record.id}: {desc}"⟩
    else
      validate_areas record rest

/-- The validation order of line 93: `itertools.chain(protoclusters,
subregions)` — proto-clusters first, then sub-regions, each mapped to its
location and descriptive form. -/
def chain_areas (protoclusters : List ProtoclusterAnno)
    (subregions : List SubRegionAnno) : List (Location × String) :=
  protoclusters.map (fun p => (p.build_location, p.describe))
    ++ subregions.map (fun s => (s.build_location, s.describe))

/-- Comma-separated joining of a list of names, embedding Python's
`", ".join(missing)` in the missing-marker warning. -/
def comma_join (names : List String) : String :=
  match names with
  | [] => ""
  | [name] => name
  | name :: rest => name ++ ", " ++ comma_join rest

/-- The collection phase of `load_single_record_annotations` (lines 43-91):
source files, then the manual region, then marker windows, accumulating the
warning emitted for missing marker names.  Returns the merged sub-region
and proto-cluster lists plus the emitted warnings. -/
def collect_annotations (annotation_files : List AnnotationFileInput)
    (record : Record) (manual : Option SideloadSimple)
    (cds_markers : Option (List String)) (cds_marker_padding : Int) :
    Except AntismashInputError
      (List SubRegionAnno × List ProtoclusterAnno × List String) :=
  let circular_origin : Option Int :=
    if record.is_circular then some record.length else none
  match load_files annotation_files record circular_origin with
  | .error e => .error e
  | .ok (subregions, protoclusters) =>
    let subregions := subregions ++ manual_subregions record manual circular_origin
    let (markerSubs, missing) :=
      match cds_markers with
      | none => ([], [])
      | some names =>
        if names.isEmpty then ([], [])
        else process_markers names record manual_tool cds_marker_padding
    let warnings : List String :=
      if missing.isEmpty then []
      else
        let listed := comma_join missing
        [s!"Features named for sideloading are not present in {record.id}: {listed}"]
    .ok (subregions ++ markerSubs, protoclusters, warnings)

/-- The full `load_single_record_annotations`: collect all intervals, emit
any missing-marker warning, validate every area (proto-clusters first) and
either abort with an `AntismashInputError` or return the `SideloadedResults`
bound to the record's id.  The first component is the list of warnings
logged, the second the outcome. -/
def load_single_record_annotations (annotation_files : List AnnotationFileInput)
    (record : Record) (manual : Option SideloadSimple)
    (cds_markers : Option (List String)) (cds_marker_padding : Int) :
    List String × Except AntismashInputError SideloadedResults :=
  match collect_annotations annotation_files record manual cds_markers cds_marker_padding with
  | .error e => ([], .error e)
  | .ok (subregions, protoclusters, warnings) =>
    match validate_areas record (chain_areas protoclusters subregions) with
    | some e => (warnings, .error e)
    | none => (warnings, .ok ⟨record.id, subregions, protoclusters⟩)

/-! Concrete sample inputs used by the witness theorems: a linear record
with one gene, a circular record with two genes (one wrapping the origin),
and a handful of annotation source files. -/

/-- A linear record of length 10000 with one gene at positions 2000-3000. -/
def sample_record : Record :=
  ⟨"rec1", ["rec1"], 10000, false, [⟨"geneA", 2000, 3000⟩]⟩

/-- A circular record of length 10000 with a gene wrapping the origin
(start 9950, end 50) and a gene at positions 9800-9950. -/
def circ_record : Record :=
  ⟨"circ1", ["circ1"], 10000, true, [⟨"geneW", 9950, 50⟩, ⟨"geneB", 9800, 9950⟩]⟩

/-- A source file declaring one sub-region containing no gene of
`sample_record`. -/
def fileC : AnnotationFileInput :=
  .valid ⟨⟨"toolC", "1", "descC", []⟩, [⟨"rec1", [⟨5000, 6000, "c", []⟩], []⟩]⟩

/-- A source file declaring one sub-region with inverted bounds, failing
coordinate conversion on a linear record. -/
def fileD : AnnotationFileInput :=
  .valid ⟨⟨"toolD", "1", "descD", []⟩, [⟨"rec1", [⟨4000, 1000, "d", []⟩], []⟩]⟩

/-! Helper lemmas shared by the claim proofs. -/

/-- The validation loop reports exactly the first area of the list whose
contained-CDS query is empty. -/
lemma validate_areas_eq_find (record : Record) (areas : List (Location × String)) :
    validate_areas record areas =
      (areas.find? (fun a =>
          (record.get_cds_features_within_location a.1).isEmpty)).map
        (fun a =>
          ⟨s!"sideloaded area contains no complete CDS features in {record.id}: {a.2}"⟩) := by
  induction areas with
  | nil => rfl
  | cons hd tl ih =>
    obtain ⟨loc, desc⟩ := hd
    by_cases h : (record.get_cds_features_within_location loc).isEmpty
    · simp [validate_areas, h, List.find?]
    · simp only [validate_areas, h, if_false, List.find?]
      rw [ih]
      simp [h]

/-- C8: with no annotation files, no matching manual region and no marker
names (absent or an empty list), `load_single_record_annotations` succeeds
and returns a result set bound to the record's id with empty sub-region and
proto-cluster sequences and no warnings. -/
theorem c8_empty_inputs_succeed (record : Record) (p : Int)
    (manual : Option SideloadSimple)
    (h : ∀ m, manual = some m → record.has_name m.accession = false) :
    load_single_record_annotations [] record manual none p
        = ([], .ok ⟨record.id, [], []⟩) ∧
      load_single_record_annotations [] record manual (some []) p
        = ([], .ok ⟨record.id, [], []⟩) := by
  have hm : manual_subregions record manual
      (if record.is_circular then some record.length else none) = [] := by
    cases manual with
    | none => rfl
    | some m => simp [manual_subregions, h m rfl]
  constructor <;>
    simp [load_single_record_annotations, collect_annotations, load_files, hm,
      validate_areas, chain_areas]

/-- Witness for C8 at a concrete record with a non-matching manual region. -/
theorem c8_empty_inputs_succeed_witness :
    load_single_record_annotations [] sample_record (some ⟨"other", 1, 2⟩) none 20000
        = ([], .ok ⟨"rec1", [], []⟩) ∧
      load_single_record_annotations [] sample_record (some ⟨"other", 1, 2⟩) (some []) 20000
        = ([], .ok ⟨"rec1", [], []⟩) :=
  c8_empty_inputs_succeed sample_record 20000 (some ⟨"other", 1, 2⟩)
    (fun m hm => by cases hm; rfl)

/-- C4: a manual region matching the record yields exactly one sub-region
whose end bound is clamped to the record length while its start bound is
passed through unmodified, whatever start was supplied. -/
theorem c4_manual_end_clamped_start_passed (record : Record) (m : SideloadSimple)
    (co : Option Int) (h : record.has_name m.accession = true) :
    manual_subregions record (some m) co
      = [⟨m.start, min m.stop record.length, "", manual_tool, [], co⟩] := by
  simp [manual_subregions, h]

/-- Witness for C4 at a manual region with a negative start (kept) and an
out-of-range end (clamped). -/
theorem c4_manual_end_clamped_start_passed_witness :
    manual_subregions sample_record (some ⟨"rec1", -5, 20000⟩) none
      = [⟨-5, 10000, "", manual_tool, [], none⟩] :=
  c4_manual_end_clamped_start_passed sample_record ⟨"rec1", -5, 20000⟩ none rfl

/-- C9: on a circular record, a matching manual region is built with bounds
`(start, min(end, record_length))` exactly as in the linear case — no
modulo wraparound is applied — while still carrying the record length as
its circular origin. -/
theorem c9_manual_no_wraparound_on_circular (record : Record) (m : SideloadSimple)
    (hcirc : record.is_circular = true) (h : record.has_name m.accession = true) :
    manual_subregions record (some m)
        (if record.is_circular then some record.length else none)
      = [⟨m.start, min m.stop record.length, "", manual_tool, [],
          some record.length⟩] := by
  simp [manual_subregions, h, hcirc]

/-- Witness for C9: a manual region on the circular record with start
beyond the record length stays unreduced. -/
theorem c9_manual_no_wraparound_on_circular_witness :
    manual_subregions circ_record (some ⟨"circ1", 15000, 25000⟩)
        (if circ_record.is_circular then some circ_record.length else none)
      = [⟨15000, 10000, "", manual_tool, [], some 10000⟩] :=
  c9_manual_no_wraparound_on_circular circ_record ⟨"circ1", 15000, 25000⟩ rfl rfl

/-- C3: marker expansion around a found gene with bounds `gs, ge` and
padding `p` produces, on a circular record of length `L`, the sub-region
`start = (gs - p + L) % L`, `end = (ge + p) % L` with circular origin `L`;
on a linear record it produces `start = max 0 (gs - p)`,
`end = min (ge + p) L` with no circular origin, labeled with the marker's
name in both cases. -/
theorem c3_marker_expansion (record : Record) (name : String) (cds : CDSFeature)
    (tool : Tool) (p : Int) (h : record.get_cds_by_name name = some cds) :
    (record.is_circular = true →
        process_markers [name] record tool p
          = ([⟨(cds.start - p + record.length) % record.length,
               (cds.stop + p) % record.length, name, tool, [],
               some record.length⟩], [])) ∧
      (record.is_circular = false →
        process_markers [name] record tool p
          = ([⟨max 0 (cds.start - p), min (cds.stop + p) record.length, name,
               tool, [], none⟩], [])) := by
  constructor <;> intro hc <;> simp [process_markers, h, hc]

/-- Witness for C3 at the spec's scenario: circular record of length 10000,
gene with start 9950 and end 50, padding 100 — the window is
`start = 9850`, `end = 150`, `circular_origin = 10000`. -/
theorem c3_marker_expansion_witness :
    process_markers ["geneW"] circ_record manual_tool 100
      = ([⟨9850, 150, "geneW", manual_tool, [], some 10000⟩], []) := by
  have h := (c3_marker_expansion circ_record "geneW" ⟨"geneW", 9950, 50⟩
    manual_tool 100 rfl).1 rfl
  simpa using h

/-- Each found marker contributes one sub-region labeled with its own name:
the produced labels are exactly the found names, in list order. -/
lemma process_markers_labels (names : List String) (record : Record) (tool : Tool)
    (p : Int) :
    (process_markers names record tool p).1.map (fun s => s.label)
      = names.filter (fun n => (record.get_cds_by_name n).isSome) := by
  induction names with
  | nil => rfl
  | cons n rest ih =>
    cases h : record.get_cds_by_name n with
    | none => simp [process_markers, h, ih]
    | some cds =>
      cases hc : record.is_circular <;> simp [process_markers, h, hc, ih]

/-- The missing-name collection contains a name exactly when it occurs in
the marker list and is absent from the record. -/
lemma process_markers_missing_mem (names : List String) (record : Record)
    (tool : Tool) (p : Int) :
    ∀ x, x ∈ (process_markers names record tool p).2 ↔
      x ∈ names ∧ record.get_cds_by_name x = none := by
  induction names with
  | nil => intro x; simp [process_markers]
  | cons n rest ih =>
    intro x
    cases h : record.get_cds_by_name n with
    | none =>
      simp only [process_markers, h, List.mem_insert_iff, List.mem_cons]
      rw [ih x]
      constructor
      · rintro (rfl | ⟨hr, hn⟩)
        · exact ⟨Or.inl rfl, h⟩
        · exact ⟨Or.inr hr, hn⟩
      · rintro ⟨rfl | hr, hn⟩
        · exact Or.inl rfl
        · exact Or.inr ⟨hr, hn⟩
    | some cds =>
      simp only [process_markers, h, List.mem_cons]
      rw [ih x]
      constructor
      · rintro ⟨hr, hn⟩
        exact ⟨Or.inr hr, hn⟩
      · rintro ⟨rfl | hr, hn⟩
        · rw [h] at hn; cases hn
        · exact ⟨hr, hn⟩

/-- The missing-name collection is duplicate-free: it models the Python set
used to accumulate names absent from the record. -/
lemma process_markers_missing_nodup (names : List String) (record : Record)
    (tool : Tool) (p : Int) :
    (process_markers names record tool p).2.Nodup := by
  induction names with
  | nil => simp [process_markers]
  | cons n rest ih =>
    cases h : record.get_cds_by_name n with
    | none => simpa [process_markers, h] using ih.insert
    | some cds => simpa [process_markers, h] using ih

/-- A present marker name contributes one sub-region per occurrence in the
marker list. -/
lemma process_markers_count (names : List String) (record : Record) (tool : Tool)
    (p : Int) (n : String) (cds : CDSFeature)
    (h : record.get_cds_by_name n = some cds) :
    ((process_markers names record tool p).1.filter
        (fun s => s.label == n)).length = names.count n := by
  induction names with
  | nil => simp [process_markers]
  | cons m rest ih =>
    by_cases e : m = n
    · subst e
      cases hc : record.is_circular <;>
        simp [process_markers, h, hc, List.count_cons, List.filter_cons, ih]
    · cases hm : record.get_cds_by_name m with
      | none =>
        simp [process_markers, hm, List.count_cons, ih, e, Ne.symm e]
      | some c2 =>
        cases hc : record.is_circular <;>
          simp [process_markers, hm, hc, List.count_cons, List.filter_cons, ih, e,
            Ne.symm e]

/-- On a circular record of positive length every marker-derived interval
has normalized bounds in `[0, L)` and carries the record length as its
circular origin. -/
lemma process_markers_circular_bounds (names : List String) (record : Record)
    (tool : Tool) (p : Int) (hc : record.is_circular = true)
    (hL : 0 < record.length) :
    ∀ sub ∈ (process_markers names record tool p).1,
      0 ≤ sub.start ∧ sub.start < record.length ∧ 0 ≤ sub.stop ∧
        sub.stop < record.length ∧ sub.circular_origin = some record.length := by
  induction names with
  | nil => intro sub hsub; simp [process_markers] at hsub
  | cons n rest ih =>
    intro sub hsub
    cases h : record.get_cds_by_name n with
    | none =>
      simp only [process_markers, h] at hsub
      exact ih sub hsub
    | some cds =>
      simp only [process_markers, h, hc, if_true, List.mem_cons] at hsub
      rcases hsub with rfl | hsub
      · exact ⟨Int.emod_nonneg _ (by linarith), Int.emod_lt_of_pos _ hL,
          Int.emod_nonneg _ (by linarith), Int.emod_lt_of_pos _ hL, rfl⟩
      · exact ih sub hsub

/-- When the raw padded window of a found marker starts inside `[0, L)`,
extends past `L`, and spans less than `L`, the produced interval wraps:
its end is strictly below its start. -/
lemma process_markers_single_wrap (record : Record) (name : String)
    (cds : CDSFeature) (tool : Tool) (p : Int)
    (hc : record.is_circular = true)
    (h : record.get_cds_by_name name = some cds)
    (h0 : 0 ≤ cds.start - p) (h1 : cds.start - p < record.length)
    (h2 : record.length < cds.stop + p)
    (h3 : cds.stop + p - (cds.start - p) < record.length) :
    ∀ sub ∈ (process_markers [name] record tool p).1, sub.stop < sub.start := by
  intro sub hsub
  simp only [process_markers, h, hc, if_true, List.mem_cons, List.not_mem_nil,
    or_false] at hsub
  subst hsub
  show (cds.stop + p) % record.length < (cds.start - p + record.length) % record.length
  rw [Int.add_emod_self, Int.emod_eq_of_lt h0 h1]
  have he : (cds.stop + p) % record.length = cds.stop + p - record.length := by
    have hh : (cds.stop + p - record.length) % record.length
        = cds.stop + p - record.length :=
      Int.emod_eq_of_lt (by linarith) (by linarith)
    rw [Int.emod_sub_cancel] at hh
    exact hh
  rw [he]
  linarith

/-- C7 counterexample: on the circular record of length 10000, the marker
`geneB` (gene 9800-9950) with the default padding 20000 yields a raw padded
window extending past the record length (9950 + 20000 > 10000), yet the
produced interval has end 9950, not below its start 9800 — refuting the
claim that the resulting interval has `end < start` whenever the raw padded
window extended past `L`, for arbitrary padding. -/
theorem c7_counterexample_wide_window :
    circ_record.is_circular = true ∧ 0 < circ_record.length ∧
      circ_record.get_cds_by_name "geneB" = some ⟨"geneB", 9800, 9950⟩ ∧
      process_markers ["geneB"] circ_record manual_tool 20000
        = ([⟨9800, 9950, "geneB", manual_tool, [], some 10000⟩], []) ∧
      circ_record.length < 9950 + 20000 ∧ ¬((9950 : Int) < 9800) :=
  ⟨rfl, by decide, rfl, rfl, by decide, by decide⟩

/-- C7 (amended): every marker-derived interval on a circular record of
positive length `L` has normalized start and end in `[0, L)` and carries
`circular_origin = L`; and whenever the raw padded window starts within
`[0, L)`, extends past `L`, and spans less than `L` in total, the produced
interval has end strictly below start. -/
theorem c7_circular_marker_bounds (record : Record) (names : List String)
    (tool : Tool) (p : Int) (hc : record.is_circular = true)
    (hL : 0 < record.length) :
    (∀ sub ∈ (process_markers names record tool p).1,
        0 ≤ sub.start ∧ sub.start < record.length ∧ 0 ≤ sub.stop ∧
          sub.stop < record.length ∧ sub.circular_origin = some record.length) ∧
      (∀ name cds, record.get_cds_by_name name = some cds →
        0 ≤ cds.start - p → cds.start - p < record.length →
        record.length < cds.stop + p →
        cds.stop + p - (cds.start - p) < record.length →
        ∀ sub ∈ (process_markers [name] record tool p).1, sub.stop < sub.start) :=
  ⟨process_markers_circular_bounds names record tool p hc hL,
    fun name cds h h0 h1 h2 h3 =>
      process_markers_single_wrap record name cds tool p hc h h0 h1 h2 h3⟩

/-- Witness for the amended C7: the marker `geneB` with padding 100 has raw
window 9700 to 10050, which wraps to the interval 9700 to 50: both bounds
lie inside the record, the origin is recorded, and the end 50 lies below
the start 9700. -/
theorem c7_circular_marker_bounds_witness :
    ((0 : Int) ≤ 9700 ∧ (9700 : Int) < 10000 ∧ (0 : Int) ≤ 50 ∧
        (50 : Int) < 10000 ∧ some (10000 : Int) = some 10000) ∧
      (50 : Int) < 9700 := by
  have H := c7_circular_marker_bounds circ_record ["geneB"] manual_tool 100 rfl
    (by decide)
  have hmem : (⟨9700, 50, "geneB", manual_tool, [], some 10000⟩ : SubRegionAnno)
      ∈ (process_markers ["geneB"] circ_record manual_tool 100).1 := by decide
  exact ⟨H.1 ⟨9700, 50, "geneB", manual_tool, [], some 10000⟩ hmem,
    H.2 "geneB" ⟨"geneB", 9800, 9950⟩ rfl (by decide) (by decide) (by decide)
      (by decide) ⟨9700, 50, "geneB", manual_tool, [], some 10000⟩ hmem⟩

/-- C5: marker processing never fails on absent names — each found marker
contributes one sub-region labeled with that marker's own name (the labels
of the produced sub-regions are exactly the found names, in order), and a
load with one present and one absent marker succeeds with the one
marker-derived sub-region and exactly one aggregate warning naming the
absent marker. -/
theorem c5_missing_markers_nonfatal (record : Record) (names : List String)
    (present absent : String) (cds : CDSFeature) (p : Int) (sub : SubRegionAnno)
    (hp : record.get_cds_by_name present = some cds)
    (ha : record.get_cds_by_name absent = none)
    (hsub : process_markers [present] record manual_tool p = ([sub], []))
    (hv : validate_areas record (chain_areas [] [sub]) = none) :
    ((process_markers names record manual_tool p).1.map (fun s => s.label)
        = names.filter (fun n => (record.get_cds_by_name n).isSome)) ∧
      load_single_record_annotations [] record none (some [present, absent]) p
        = ([s!"Features named for sideloading are not present in {record.id}: {absent}"],
            .ok ⟨record.id, [sub], []⟩) := by
  refine ⟨process_markers_labels names record manual_tool p, ?_⟩
  have h1 : process_markers [present, absent] record manual_tool p
      = ((process_markers [present] record manual_tool p).1, [absent]) := by
    simp [process_markers, hp, ha]
  rw [hsub] at h1
  have hv2 : validate_areas record [(sub.build_location, sub.describe)] = none := by
    simpa [chain_areas] using hv
  simp only [load_single_record_annotations, collect_annotations, load_files,
    manual_subregions, h1, List.isEmpty_cons, comma_join]
  simp [chain_areas, hv2]

/-- Witness for C5: loading the linear sample record with one present
marker (geneA, padding 100) and one absent marker (nope) succeeds with one
sub-region and one aggregate warning naming the absent marker. -/
theorem c5_missing_markers_nonfatal_witness :
    ((process_markers ["geneA", "nope"] sample_record manual_tool 100).1.map
        (fun s => s.label)
        = (["geneA", "nope"]).filter
            (fun n => (sample_record.get_cds_by_name n).isSome)) ∧
      load_single_record_annotations [] sample_record none (some ["geneA", "nope"]) 100
        = (["Features named for sideloading are not present in rec1: nope"],
            .ok ⟨"rec1", [⟨1900, 3100, "geneA", manual_tool, [], none⟩], []⟩) :=
  c5_missing_markers_nonfatal sample_record ["geneA", "nope"] "geneA" "nope"
    ⟨"geneA", 2000, 3000⟩ 100 ⟨1900, 3100, "geneA", manual_tool, [], none⟩
    rfl rfl rfl rfl

/-- C10: the missing-marker collection is a set — duplicate-free, holding a
name exactly when it occurs in the marker list and is absent from the
record, so a repeated absent name is reported at most once — while a
present marker name contributes one sub-region per occurrence in the
list. -/
theorem c10_missing_deduplicated_present_repeated (record : Record)
    (names : List String) (tool : Tool) (p : Int) (n : String) (cds : CDSFeature)
    (h : record.get_cds_by_name n = some cds) :
    (process_markers names record tool p).2.Nodup ∧
      (∀ x, x ∈ (process_markers names record tool p).2 ↔
          x ∈ names ∧ record.get_cds_by_name x = none) ∧
      ((process_markers names record tool p).1.filter
          (fun s => s.label == n)).length = names.count n :=
  ⟨process_markers_missing_nodup names record tool p,
    process_markers_missing_mem names record tool p,
    process_markers_count names record tool p n cds h⟩

/-- Witness for C10: with markers x, x, geneA, geneA on the sample record,
the absent name x is collected without duplicates while the present name
geneA yields two sub-regions, matching its two occurrences. -/
theorem c10_missing_deduplicated_present_repeated_witness :
    (process_markers ["x", "x", "geneA", "geneA"] sample_record manual_tool 100).2.Nodup ∧
      ("x" ∈ (process_markers ["x", "x", "geneA", "geneA"] sample_record
            manual_tool 100).2 ↔
        "x" ∈ ["x", "x", "geneA", "geneA"]
          ∧ sample_record.get_cds_by_name "x" = none) ∧
      ((process_markers ["x", "x", "geneA", "geneA"] sample_record
            manual_tool 100).1.filter (fun s => s.label == "geneA")).length
        = (["x", "x", "geneA", "geneA"]).count "geneA" := by
  have H := c10_missing_deduplicated_present_repeated sample_record
    ["x", "x", "geneA", "geneA"] manual_tool 100 "geneA" ⟨"geneA", 2000, 3000⟩ rfl
  exact ⟨H.1, H.2.1 "x", H.2.2⟩

/-- C1: the merged intervals are validated in the fixed order
proto-clusters first then sub-regions (the chain is definitionally the
proto-cluster areas followed by the sub-region areas), and the first
interval whose contained-CDS query is empty aborts the whole load with an
input error naming the record and the interval's descriptive form — no
result set is returned. -/
theorem c1_empty_interval_aborts (files : List AnnotationFileInput)
    (record : Record) (manual : Option SideloadSimple)
    (markers : Option (List String)) (p : Int) (subs : List SubRegionAnno)
    (protos : List ProtoclusterAnno) (warns : List String) (loc : Location)
    (desc : String)
    (hc : collect_annotations files record manual markers p = .ok (subs, protos, warns))
    (hfind : (chain_areas protos subs).find? (fun a2 =>
        (record.get_cds_features_within_location a2.1).isEmpty) = some (loc, desc)) :
    chain_areas protos subs
        = protos.map (fun a2 => (a2.build_location, a2.describe))
          ++ subs.map (fun a2 => (a2.build_location, a2.describe)) ∧
      load_single_record_annotations files record manual markers p
        = (warns, .error
            ⟨s!"sideloaded area contains no complete CDS features in {record.id}: {desc}"⟩) := by
  refine ⟨rfl, ?_⟩
  rw [load_single_record_annotations, hc]
  dsimp only
  rw [validate_areas_eq_find, hfind]
  rfl

/-- Witness for C1: a source declaring the sub-region 5000-6000 containing
no gene of the sample record aborts the load with the empty-overlap input
error. -/
theorem c1_empty_interval_aborts_witness :
    chain_areas [] [⟨5000, 6000, "c", ⟨"toolC", "1", "descC", []⟩, [], none⟩]
        = ([] : List ProtoclusterAnno).map (fun a2 => (a2.build_location, a2.describe))
          ++ [(⟨5000, 6000, "c", ⟨"toolC", "1", "descC", []⟩, [], none⟩
              : SubRegionAnno)].map (fun a2 => (a2.build_location, a2.describe)) ∧
      load_single_record_annotations [fileC] sample_record none none 20000
        = ([], .error
            ⟨"sideloaded area contains no complete CDS features in rec1: subregion c [5000 - 6000]"⟩) :=
  c1_empty_interval_aborts [fileC] sample_record none none 20000
    [⟨5000, 6000, "c", ⟨"toolC", "1", "descC", []⟩, [], none⟩] [] []
    (.simple 5000 6000) "subregion c [5000 - 6000]" rfl rfl

/-- C6: every fatal failure propagates as the single input-error type with
a descriptive message and no result set is returned: a schema-invalid
source aborts with its own message, a sub-region conversion failure aborts
with a message naming the offending interval's coordinates, and an
interval enclosing no complete CDS aborts with a message naming the record
and the interval. -/
theorem c6_fatal_errors_are_input_errors (record : Record) (msg : String)
    (rest files : List AnnotationFileInput) (manual : Option SideloadSimple)
    (markers : Option (List String)) (p : Int) (rname : String) (tool : Tool)
    (area : AreaJson) (e : String) (subs : List SubRegionAnno)
    (protos : List ProtoclusterAnno) (warns : List String) (loc : Location)
    (desc : String)
    (hname : record.has_name rname = true)
    (herr : SubRegionAnno.from_schema_json area tool
        (if record.is_circular then some record.length else none) = .error e)
    (hc : collect_annotations files record manual markers p = .ok (subs, protos, warns))
    (hfind : (chain_areas protos subs).find? (fun a2 =>
        (record.get_cds_features_within_location a2.1).isEmpty) = some (loc, desc)) :
    load_single_record_annotations (.invalid msg :: rest) record manual markers p
        = ([], .error ⟨msg⟩) ∧
      load_single_record_annotations [.valid ⟨tool, [⟨rname, [area], []⟩]⟩] record
          manual markers p
        = ([], .error ⟨s!"sideloaded subregion invalid: {e}"⟩) ∧
      load_single_record_annotations files record manual markers p
        = (warns, .error
            ⟨s!"sideloaded area contains no complete CDS features in {record.id}: {desc}"⟩) := by
  refine ⟨?_, ?_, ?_⟩
  · simp [load_single_record_annotations, collect_annotations, load_files,
      load_validated_json]
  · simp [load_single_record_annotations, collect_annotations, load_files,
      load_validated_json, load_file_records, hname, load_subregions, herr]
  · rw [load_single_record_annotations, hc]
    dsimp only
    rw [validate_areas_eq_find, hfind]
    rfl

/-- Witness for C6: a schema-invalid file, a source with inverted
sub-region bounds, and a source whose sub-region contains no gene each
abort the load with the corresponding descriptive input error. -/
theorem c6_fatal_errors_are_input_errors_witness :
    load_single_record_annotations [.invalid "bad schema"] sample_record none none
        20000 = ([], .error ⟨"bad schema"⟩) ∧
      load_single_record_annotations
          [.valid ⟨⟨"toolD", "1", "descD", []⟩,
            [⟨"rec1", [⟨4000, 1000, "d", []⟩], []⟩]⟩] sample_record none none 20000
        = ([], .error ⟨"sideloaded subregion invalid: invalid subregion coordinates 4000 and 1000"⟩) ∧
      load_single_record_annotations [fileC] sample_record none none 20000
        = ([], .error
            ⟨"sideloaded area contains no complete CDS features in rec1: subregion c [5000 - 6000]"⟩) :=
  c6_fatal_errors_are_input_errors sample_record "bad schema" [] [fileC] none none
    20000 "rec1" ⟨"toolD", "1", "descD", []⟩ ⟨4000, 1000, "d", []⟩
    "invalid subregion coordinates 4000 and 1000"
    [⟨5000, 6000, "c", ⟨"toolC", "1", "descC", []⟩, [], none⟩] [] []
    (.simple 5000 6000) "subregion c [5000 - 6000]" rfl rfl rfl rfl
